import Mathlib

/-!
Shallow embedding of the hotel-booking server (`src/index.js`).

The repository holds two variants of the same Express server: the primary
better-sqlite3 variant (lines 1-197 of `index.js`) and a mongoose variant
(lines 198-450).  The definitions below embed the sqlite variant; where the
mongo variant differs in a way a claim depends on, a separate definition of
the differing fragment is given and named accordingly.

Dates are ISO `yyyy-mm-dd` strings.  JavaScript compares strings
lexicographically by UTF-16 code unit; for these ASCII strings this is the
lexicographic order on the character list, which we use directly (it agrees
with the order on `String`, see `strLe_eq_decide_le`).
-/

namespace Hotel

/-- JavaScript string comparison `a <= b`: lexicographic on the characters. -/
def strLe (a b : String) : Bool := decide (a.data ≤ b.data)

/-- Source function `datesOverlap` (`src/index.js` lines 85-88):
`return !(aEnd <= bStart || bEnd <= aStart);` — each argument an ISO
yyyy-mm-dd string. -/
def datesOverlap (aStart aEnd bStart bEnd : String) : Bool :=
  !(strLe aEnd bStart || strLe bEnd aStart)

/-- Room row (`rooms` table, lines 31-38).  `pricePerNight` is `REAL` in the
schema; no claim computes with it, so it is carried as an integer constant. -/
structure Room where
  id : Nat
  name : String
  description : String
  pricePerNight : Int
  capacity : Nat
  image : String
deriving Repr, DecidableEq

/-- Booking row (`bookings` table, lines 39-53).  `status` is free-form
`TEXT` in the schema; the code only ever writes "confirmed" and
"cancelled".  `specialRequests` is total here because every insert supplies
it (`specialRequests || ""`). -/
structure Booking where
  id : Nat
  userId : Nat
  roomId : Nat
  checkIn : String
  checkOut : String
  fullName : String
  email : String
  phone : String
  specialRequests : String
  status : String
  createdAt : String
deriving Repr, DecidableEq

/-- User row (`users` table, lines 24-30). -/
structure User where
  id : Nat
  name : String
  email : String
  passwordHash : String
  createdAt : String
deriving Repr, DecidableEq

/-- The persistent database state.  `nextBookingId` models the
`AUTOINCREMENT` id assignment of the `bookings` table. -/
structure ServerState where
  rooms : List Room
  users : List User
  bookings : List Booking
  nextBookingId : Nat
deriving Repr, DecidableEq

/-- Error responses of the routes: HTTP 400 / 404 / 409 with the message
from the `error` JSON field. -/
inductive ApiError where
  | validation (msg : String)
  | notFound (msg : String)
  | conflict (msg : String)
deriving Repr, DecidableEq

/-- JS truthiness of an optional string request field: `undefined` and the
empty string are falsy (`!checkIn` etc.). -/
def truthyStr : Option String → Bool
  | none => false
  | some s => !(s == "")

/-- JS truthiness of an optional numeric request field: `undefined` and `0`
are falsy (`!roomId`). -/
def truthyNat : Option Nat → Bool
  | none => false
  | some n => !(n == 0)

/-- Body of `POST /api/bookings` (line 144). -/
structure BookingRequest where
  roomId : Option Nat
  checkIn : Option String
  checkOut : Option String
  fullName : Option String
  email : Option String
  phone : Option String
  specialRequests : Option String
deriving Repr, DecidableEq

/-- Row condition of the conflict query of `POST /api/bookings`
(`src/index.js` lines 153-157):

    SELECT COUNT(*) as c FROM bookings
    WHERE roomId = ? AND status = 'confirmed'
      AND NOT (? <= checkIn OR checkOut <= ?)

with `.get(roomId, checkIn, checkOut)`: the placeholders are bound
positionally, so the second `?` receives the request checkIn and the third
the request checkOut.  The resulting condition is
`NOT (req.checkIn <= b.checkIn OR b.checkOut <= req.checkOut)`. -/
def sqlConflict (roomId : Nat) (checkIn checkOut : String) (b : Booking) : Bool :=
  b.roomId == roomId && b.status == "confirmed" &&
    !(strLe checkIn b.checkIn || strLe b.checkOut checkOut)

/-- Row condition of the conflict query of the mongo variant
(`index.js` lines 388-395):
`$nor: [ \x7bcheckIn: \x7b$gte: checkOut\x7d\x7d, \x7bcheckOut: \x7b$lte: checkIn\x7d\x7d ]`,
that is `NOT (b.checkIn >= req.checkOut OR b.checkOut <= req.checkIn)`. -/
def mongoConflict (roomId : Nat) (checkIn checkOut : String) (b : Booking) : Bool :=
  b.roomId == roomId && b.status == "confirmed" &&
    !(strLe checkOut b.checkIn || strLe b.checkOut checkIn)

/-- Route `POST /api/bookings` (`src/index.js` lines 143-169), sqlite
variant.  `userId` is `req.user.id` from the verified token; `now` is
`new Date().toISOString()`.  Returns the route result together with the
database state after the call. -/
def createBooking (st : ServerState) (userId : Nat) (req : BookingRequest)
    (now : String) : Except ApiError (Booking × Room) × ServerState :=
  if !(truthyNat req.roomId && truthyStr req.checkIn && truthyStr req.checkOut &&
       truthyStr req.fullName && truthyStr req.email && truthyStr req.phone) then
    (Except.error (ApiError.validation ("Missing fields")), st)
  else
    let roomId := req.roomId.getD 0
    let checkIn := req.checkIn.getD ("")
    let checkOut := req.checkOut.getD ("")
    match st.rooms.find? (fun r => r.id == roomId) with
    | none => (Except.error (ApiError.notFound ("Room not found")), st)
    | some room =>
      if 0 < st.bookings.countP (sqlConflict roomId checkIn checkOut) then
        (Except.error (ApiError.conflict ("Room no longer available for those dates")), st)
      else
        let b : Booking :=
          { id := st.nextBookingId, userId := userId, roomId := roomId,
            checkIn := checkIn, checkOut := checkOut,
            fullName := req.fullName.getD (""), email := req.email.getD (""),
            phone := req.phone.getD (""),
            specialRequests := req.specialRequests.getD (""),
            status := "confirmed", createdAt := now }
        (Except.ok (b, room),
          { st with bookings := st.bookings ++ [b],
                    nextBookingId := st.nextBookingId + 1 })

/-- Route `GET /api/rooms/search` (`src/index.js` lines 125-140).
`guests` is the parsed guest count; `parseInt(guests || "1", 10)` defaults
it to 1 when unspecified.  Read-only: no state is returned. -/
def search (st : ServerState) (checkIn checkOut : Option String)
    (guests : Option Nat) : Except ApiError (List Room) :=
  if !(truthyStr checkIn && truthyStr checkOut) then
    Except.error (ApiError.validation ("checkIn & checkOut required"))
  else
    let ci := checkIn.getD ("")
    let co := checkOut.getD ("")
    let g := guests.getD 1
    let rooms := st.rooms.filter (fun r => g ≤ r.capacity)
    let bookings := st.bookings.filter (fun b => b.status == "confirmed")
    Except.ok (rooms.filter (fun room =>
      !((bookings.filter (fun b => b.roomId == room.id)).any
          (fun b => datesOverlap ci co b.checkIn b.checkOut))))

/-- Route `PATCH /api/bookings/:id/cancel` (`src/index.js` lines 184-193).
`today` is `new Date().toISOString().slice(0,10)`.  The
`UPDATE bookings SET status = 'cancelled' WHERE id = ?` is the map over the
bookings list. -/
def cancel (st : ServerState) (userId : Nat) (id : Nat) (today : String) :
    Except ApiError Unit × ServerState :=
  match st.bookings.find? (fun b => b.id == id) with
  | none => (Except.error (ApiError.notFound ("Booking not found")), st)
  | some booking =>
    if booking.userId != userId then
      (Except.error (ApiError.notFound ("Booking not found")), st)
    else if booking.status != "confirmed" then
      (Except.error (ApiError.validation ("Cannot cancel this booking")), st)
    else if strLe booking.checkIn today then
      (Except.error (ApiError.validation ("Cannot cancel past or ongoing stays")), st)
    else
      (Except.ok (),
        { st with bookings := st.bookings.map (fun b =>
            if b.id == id then { b with status := "cancelled" } else b) })

/-- The confirmed bookings of a room. -/
def confirmedOn (st : ServerState) (roomId : Nat) : List Booking :=
  st.bookings.filter (fun b => b.roomId == roomId && b.status == "confirmed")

/-- The no-double-booking invariant of spec section 3 for one room: the
confirmed bookings of the room are pairwise non-overlapping under
`datesOverlap`. -/
def overlapFree (st : ServerState) (roomId : Nat) : Prop :=
  (confirmedOn st roomId).Pairwise
    (fun a b => datesOverlap a.checkIn a.checkOut b.checkIn b.checkOut = false)

instance (st : ServerState) (roomId : Nat) : Decidable (overlapFree st roomId) := by
  unfold overlapFree; infer_instance

/-! Concrete states used to exercise the operations: one seeded room, one
registered user, and the booking requests of Scenario B of the spec
(`[2024-06-01, 2024-06-05)` followed by `[2024-06-03, 2024-06-06)` on the
same room). -/

/-- The first seeded room (line 61), image shortened. -/
def demoRoom : Room :=
  { id := 1, name := "Standard Room",
    description := "Cozy room with queen bed, city view, workstation.",
    pricePerNight := 79, capacity := 2, image := "img" }

/-- A registered user with id 7. -/
def demoUser : User :=
  { id := 7, name := "Ann", email := "ann@example.com", passwordHash := "h",
    createdAt := "2024-05-01T00:00:00.000Z" }

/-- Booking request for room 1, `[2024-06-01, 2024-06-05)`. -/
def demoReqA : BookingRequest :=
  { roomId := some 1, checkIn := some ("2024-06-01"),
    checkOut := some ("2024-06-05"), fullName := some ("Ann Lee"),
    email := some ("ann@example.com"), phone := some ("555-0100"),
    specialRequests := none }

/-- Booking request for room 1, `[2024-06-03, 2024-06-06)` — overlaps
`demoReqA` under `datesOverlap` (Scenario B of the spec). -/
def demoReqB : BookingRequest :=
  { demoReqA with checkIn := some ("2024-06-03"), checkOut := some ("2024-06-06") }

/-- One room, one user, empty booking ledger. -/
def demoState0 : ServerState :=
  { rooms := [demoRoom], users := [demoUser], bookings := [], nextBookingId := 1 }

/-- State after booking `[2024-06-01, 2024-06-05)` on room 1. -/
def demoState1 : ServerState := (createBooking demoState0 7 demoReqA ("t0")).2

/-- State after additionally booking `[2024-06-03, 2024-06-06)` on room 1. -/
def demoState2 : ServerState := (createBooking demoState1 7 demoReqB ("t1")).2

/-- The booking created by `demoReqA`, as stored in `demoState1`. -/
def demoBooking : Booking :=
  { id := 1, userId := 7, roomId := 1, checkIn := "2024-06-01",
    checkOut := "2024-06-05", fullName := "Ann Lee", email := "ann@example.com",
    phone := "555-0100", specialRequests := "", status := "confirmed",
    createdAt := "t0" }

/-- A confirmed booking `[2024-06-03, 2024-06-04)` on room 1, strictly
inside `[2024-06-02, 2024-06-05)`. -/
def demoBookingMid : Booking :=
  { id := 1, userId := 7, roomId := 1, checkIn := "2024-06-03",
    checkOut := "2024-06-04", fullName := "Ann Lee", email := "ann@example.com",
    phone := "555-0100", specialRequests := "", status := "confirmed",
    createdAt := "t0" }

/-- State whose ledger holds only `demoBookingMid`. -/
def demoStateMid : ServerState :=
  { rooms := [demoRoom], users := [demoUser], bookings := [demoBookingMid],
    nextBookingId := 2 }

/-- State after cancelling booking 1 of `demoState1` on 2024-05-30. -/
def demoStateCancelled : ServerState := (cancel demoState1 7 1 ("2024-05-30")).2

/-- An inverted-range request: checkIn `2024-06-05`, checkOut `2024-06-02`. -/
def demoReqInverted : BookingRequest :=
  { demoReqA with checkIn := some ("2024-06-05"), checkOut := some ("2024-06-02") }

/-- A degenerate zero-length request: checkIn = checkOut = `2024-06-03`. -/
def demoReqDegenerate : BookingRequest :=
  { demoReqA with checkIn := some ("2024-06-03"), checkOut := some ("2024-06-03") }

end Hotel

deriving instance DecidableEq for Except

namespace Hotel

/-! Helper lemmas shared by the claim theorems. -/

/-- The comparison `strLe` agrees with the order on `String`. -/
theorem strLe_eq_decide_le (a b : String) : strLe a b = decide (a ≤ b) := by
  simp [strLe, String.le_iff_toList_le, String.toList]

theorem strLe_iff (a b : String) : strLe a b = true ↔ a ≤ b := by
  rw [strLe_eq_decide_le]; exact decide_eq_true_iff

theorem strLe_eq_false_iff (a b : String) : strLe a b = false ↔ b < a := by
  rw [strLe_eq_decide_le]
  constructor
  · intro h
    exact lt_of_not_le (of_decide_eq_false h)
  · intro h
    exact decide_eq_false (not_le_of_lt h)

/-- Truthy optional numbers are exactly the `some` of their default read. -/
theorem truthyNat_some (o : Option Nat) (h : truthyNat o = true) :
    o = some (o.getD 0) := by
  cases o with
  | none => simp [truthyNat] at h
  | some n => rfl

/-- Truthy optional strings are exactly the `some` of their default read. -/
theorem truthyStr_some (o : Option String) (h : truthyStr o = true) :
    o = some (o.getD ("")) := by
  cases o with
  | none => simp [truthyStr] at h
  | some s => rfl

/-- Characterisation of a successful search: with both dates supplied
(non-falsy), the result is `ok` of exactly the rooms of sufficient capacity
on which no confirmed booking overlaps the requested range. -/
theorem search_ok_mem (st : ServerState) (ci co : String) (guests : Option Nat)
    (hci : ci ≠ "") (hco : co ≠ "") :
    ∃ l, search st (some ci) (some co) guests = Except.ok l ∧
      ∀ room : Room, room ∈ l ↔ room ∈ st.rooms ∧ guests.getD 1 ≤ room.capacity ∧
        ∀ b ∈ st.bookings, b.status = "confirmed" → b.roomId = room.id →
          datesOverlap ci co b.checkIn b.checkOut = false := by
  have hci' : (ci == "") = false := by simpa using hci
  have hco' : (co == "") = false := by simpa using hco
  refine ⟨(st.rooms.filter (fun r => guests.getD 1 ≤ r.capacity)).filter
      (fun room => !((st.bookings.filter (fun b => b.status == "confirmed")).filter
          (fun b => b.roomId == room.id)).any
          (fun b => datesOverlap ci co b.checkIn b.checkOut)), ?_, ?_⟩
  · unfold search
    simp [truthyStr, hci', hco']
  · intro room
    simp only [List.mem_filter, List.any_eq_true, Bool.not_eq_true', List.any_eq_false,
      decide_eq_true_eq, beq_iff_eq, and_assoc]
    constructor
    · rintro ⟨h1, h2, h3⟩
      refine ⟨h1, h2, fun b hb hst hrm => ?_⟩
      simpa using h3 b ⟨hb, hst, hrm⟩
    · rintro ⟨h1, h2, h3⟩
      refine ⟨h1, h2, fun b hb => ?_⟩
      obtain ⟨hmem, hst, hrm⟩ := hb
      simpa using h3 b hmem hst hrm

/-- Inversion of a successful cancel: the state change is exactly the
status update of the bookings with the targeted id. -/
theorem cancel_ok_inv (st : ServerState) (uid id : Nat) (today : String)
    (st' : ServerState) (h : cancel st uid id today = (Except.ok (), st')) :
    st'.rooms = st.rooms ∧ st'.users = st.users ∧
    st'.nextBookingId = st.nextBookingId ∧
    st'.bookings = st.bookings.map (fun b =>
      if b.id == id then { b with status := "cancelled" } else b) := by
  unfold cancel at h
  split at h
  · simp at h
  · split at h
    · simp at h
    · split at h
      · simp at h
      · split at h
        · simp at h
        · cases h
          exact ⟨rfl, rfl, rfl, rfl⟩

/-- Inversion of a successful createBooking: all required fields were
truthy, the room was found, the conflict count was zero, and the state
change is exactly the appended confirmed booking. -/
theorem createBooking_ok_inv (st : ServerState) (uid : Nat) (req : BookingRequest)
    (now : String) (b : Booking) (room : Room) (st' : ServerState)
    (h : createBooking st uid req now = (Except.ok (b, room), st')) :
    truthyNat req.roomId = true ∧ truthyStr req.checkIn = true ∧
    truthyStr req.checkOut = true ∧ truthyStr req.fullName = true ∧
    truthyStr req.email = true ∧ truthyStr req.phone = true ∧
    st.rooms.find? (fun r => r.id == req.roomId.getD 0) = some room ∧
    st.bookings.countP (sqlConflict (req.roomId.getD 0) (req.checkIn.getD (""))
      (req.checkOut.getD (""))) = 0 ∧
    b = { id := st.nextBookingId, userId := uid, roomId := req.roomId.getD 0,
          checkIn := req.checkIn.getD (""), checkOut := req.checkOut.getD (""),
          fullName := req.fullName.getD (""), email := req.email.getD (""),
          phone := req.phone.getD (""),
          specialRequests := req.specialRequests.getD (""),
          status := "confirmed", createdAt := now } ∧
    st' = { st with bookings := st.bookings ++ [b],
                    nextBookingId := st.nextBookingId + 1 } := by
  unfold createBooking at h
  split at h
  · simp at h
  · rename_i hfields
    simp only [Bool.not_eq_true, Bool.not_eq_false', Bool.and_eq_true] at hfields
    obtain ⟨⟨⟨⟨⟨h1, h2⟩, h3⟩, h4⟩, h5⟩, h6⟩ := hfields
    dsimp only at h
    split at h
    · simp at h
    · rename_i room' hroom
      split at h
      · simp at h
      · rename_i hcnt
        cases h
        refine ⟨h1, h2, h3, h4, h5, h6, hroom, ?_, rfl, rfl⟩
        omega

/-! Claim theorems. -/

/-- C3: the overlap predicate returns true iff
NOT (aEnd <= bStart OR bEnd <= aStart) under lexicographic comparison; it
is symmetric; and ranges touching only at a shared boundary day do not
overlap.  It is a total Bool-valued function by construction, defined on
all date pairs including degenerate and inverted ranges. -/
theorem claim3_datesOverlap_spec :
    (∀ a b c d : String, datesOverlap a b c d = true ↔ ¬(b ≤ c ∨ d ≤ a)) ∧
    (∀ a b c d : String, datesOverlap a b c d = datesOverlap c d a b) ∧
    (∀ x y z : String, datesOverlap x y y z = false) := by
  refine ⟨fun a b c d => ?_, fun a b c d => ?_, fun x y z => ?_⟩
  · simp [datesOverlap, strLe_eq_decide_le]
  · simp [datesOverlap, Bool.or_comm]
  · simp [datesOverlap, strLe]

/-- C1 (code bug): two createBooking calls against the same room with
overlapping ranges can BOTH produce confirmed bookings — even when executed
one after the other, which is a legal schedule of two concurrently issued
calls.  From an empty ledger, booking `[2024-06-01, 2024-06-05)` and then
`[2024-06-03, 2024-06-06)` on room 1 both succeed, and the final state
holds two overlapping confirmed bookings, contradicting the claim that at
most one of a mutually-overlapping set may succeed.  (The sqlite conflict
query binds its placeholders to the wrong comparisons, see `sqlConflict`;
in the mongo variant the check and the insert are additionally separated by
awaits with no transaction.) -/
theorem claim1_double_booking :
    (createBooking demoState0 7 demoReqA ("t0")).1.isOk = true ∧
    (createBooking demoState1 7 demoReqB ("t1")).1.isOk = true ∧
    datesOverlap ("2024-06-01") ("2024-06-05") ("2024-06-03") ("2024-06-06") = true ∧
    (confirmedOn demoState2 1).length = 2 ∧
    ¬ overlapFree demoState2 1 := by decide

/-- C2 (code bug): serial execution of createBooking does NOT preserve the
pairwise non-overlap invariant.  `demoState1` satisfies the invariant on
room 1, yet a single further createBooking for the overlapping range
`[2024-06-03, 2024-06-06)` succeeds and yields a state violating it,
because the conflict query (see `sqlConflict`) only detects existing
bookings that strictly contain the requested range, not §4.1 overlaps. -/
theorem claim2_invariant_not_preserved :
    overlapFree demoState1 1 ∧
    (createBooking demoState1 7 demoReqB ("t1")).1.isOk = true ∧
    ¬ overlapFree demoState2 1 := by decide

/-- C4 (code bug): createBooking does not return Conflict iff the §4.1
overlap count is nonzero.  In `demoState1` exactly one confirmed booking on
room 1 overlaps `[2024-06-03, 2024-06-06)` per `datesOverlap`, yet the call
succeeds instead of returning the Conflict error (Scenario B of the spec
requires Conflict here). -/
theorem claim4_conflict_check_mismatch :
    demoState1.bookings.countP (fun b => b.roomId == 1 && b.status == "confirmed" &&
      datesOverlap ("2024-06-03") ("2024-06-06") b.checkIn b.checkOut) = 1 ∧
    (createBooking demoState1 7 demoReqB ("t1")).1.isOk = true := by decide

/-- C8 counterexample: a request with all required fields present, an
existing room, and ZERO confirmed bookings overlapping its range per the
§4.1 predicate is nonetheless rejected with Conflict when its range is
inverted (checkIn `2024-06-05`, checkOut `2024-06-02`) and the ledger holds
a booking between the two dates; and a degenerate zero-length range does
not pass the overlap predicate vacuously either: `[2024-06-03, 2024-06-03)`
overlaps `[2024-06-01, 2024-06-05)` under `datesOverlap`. -/
theorem claim8_counterexample :
    truthyNat demoReqInverted.roomId = true ∧
    truthyStr demoReqInverted.checkIn = true ∧
    truthyStr demoReqInverted.checkOut = true ∧
    truthyStr demoReqInverted.fullName = true ∧
    truthyStr demoReqInverted.email = true ∧
    truthyStr demoReqInverted.phone = true ∧
    demoStateMid.rooms.find? (fun r => r.id == 1) = some demoRoom ∧
    demoStateMid.bookings.countP (fun b => b.roomId == 1 && b.status == "confirmed" &&
      datesOverlap ("2024-06-05") ("2024-06-02") b.checkIn b.checkOut) = 0 ∧
    (createBooking demoStateMid 7 demoReqInverted ("t2")).1 =
      Except.error (ApiError.conflict ("Room no longer available for those dates")) ∧
    datesOverlap ("2024-06-03") ("2024-06-03") ("2024-06-01") ("2024-06-05") = true := by
  decide

/-- C8 (amended): createBooking performs no date-validity check — it never
rejects a request on the ground that checkOut <= checkIn.  With all
required fields present, the room resolved, and zero bookings matching the
conflict query condition `sqlConflict`, the call succeeds regardless of the
relation between checkOut and checkIn, including degenerate and inverted
ranges.  (Degenerate ranges do not pass the conflict check vacuously,
however: see `claim8_counterexample`.) -/
theorem claim8_amended (st : ServerState) (uid : Nat) (req : BookingRequest)
    (now : String) (room : Room)
    (h1 : truthyNat req.roomId = true) (h2 : truthyStr req.checkIn = true)
    (h3 : truthyStr req.checkOut = true) (h4 : truthyStr req.fullName = true)
    (h5 : truthyStr req.email = true) (h6 : truthyStr req.phone = true)
    (hroom : st.rooms.find? (fun r => r.id == req.roomId.getD 0) = some room)
    (hconf : st.bookings.countP (sqlConflict (req.roomId.getD 0)
      (req.checkIn.getD ("")) (req.checkOut.getD (""))) = 0) :
    ∃ bk : Booking, createBooking st uid req now =
      (Except.ok (bk, room),
       { st with bookings := st.bookings ++ [bk],
                 nextBookingId := st.nextBookingId + 1 }) := by
  refine ⟨{ id := st.nextBookingId, userId := uid, roomId := req.roomId.getD 0,
            checkIn := req.checkIn.getD (""), checkOut := req.checkOut.getD (""),
            fullName := req.fullName.getD (""), email := req.email.getD (""),
            phone := req.phone.getD (""),
            specialRequests := req.specialRequests.getD (""),
            status := "confirmed", createdAt := now }, ?_⟩
  unfold createBooking
  rw [h1, h2, h3, h4, h5, h6]
  dsimp only
  rw [hroom]
  rw [hconf]
  simp

/-- C8 witness: from the empty ledger, the degenerate request with
checkIn = checkOut = 2024-06-03 is accepted — checkOut <= checkIn is not
rejected. -/
theorem claim8_amended_witness :
    strLe (demoReqDegenerate.checkOut.getD ("")) (demoReqDegenerate.checkIn.getD ("")) = true ∧
    ∃ bk : Booking, createBooking demoState0 7 demoReqDegenerate ("t3") =
      (Except.ok (bk, demoRoom),
       { demoState0 with bookings := demoState0.bookings ++ [bk],
                         nextBookingId := demoState0.nextBookingId + 1 }) :=
  ⟨by decide,
   claim8_amended demoState0 7 demoReqDegenerate ("t3") demoRoom
     (by decide) (by decide) (by decide) (by decide) (by decide) (by decide)
     (by decide) (by decide)⟩

/-- C5: with both dates supplied, search returns (non-error, possibly
empty) exactly the rooms of capacity at least the guest count (default 1
when unspecified) on which no confirmed booking overlaps the requested
range per `datesOverlap` — cancelled bookings never exclude a room; with
checkIn or checkOut missing, the call is rejected with the Validation
error. -/
theorem claim5_search_spec (st : ServerState) (ci co : String) (guests : Option Nat)
    (hci : ci ≠ "") (hco : co ≠ "") :
    (∃ l, search st (some ci) (some co) guests = Except.ok l ∧
      ∀ room : Room, room ∈ l ↔ room ∈ st.rooms ∧ guests.getD 1 ≤ room.capacity ∧
        ∀ b ∈ st.bookings, b.status = "confirmed" → b.roomId = room.id →
          datesOverlap ci co b.checkIn b.checkOut = false) ∧
    (∀ co' g, search st none co' g =
      Except.error (ApiError.validation ("checkIn & checkOut required"))) ∧
    (∀ ci' g, search st ci' none g =
      Except.error (ApiError.validation ("checkIn & checkOut required"))) := by
  refine ⟨search_ok_mem st ci co guests hci hco, ?_, ?_⟩
  · intro co' g
    simp [search, truthyStr]
  · intro ci' g
    simp [search, truthyStr]

/-- C5 witness: searching `[2024-06-01, 2024-06-05)` for 2 guests in the
state holding the overlapping confirmed booking, and the rejection of
calls with a missing date. -/
theorem claim5_search_spec_witness :
    ("2024-06-01" : String) ≠ "" ∧ ("2024-06-05" : String) ≠ "" ∧
    ((∃ l, search demoState1 (some ("2024-06-01")) (some ("2024-06-05")) (some 2) =
        Except.ok l ∧
      ∀ room : Room, room ∈ l ↔ room ∈ demoState1.rooms ∧
        (some 2).getD 1 ≤ room.capacity ∧
        ∀ b ∈ demoState1.bookings, b.status = "confirmed" → b.roomId = room.id →
          datesOverlap ("2024-06-01") ("2024-06-05") b.checkIn b.checkOut = false) ∧
    (∀ co' g, search demoState1 none co' g =
      Except.error (ApiError.validation ("checkIn & checkOut required"))) ∧
    (∀ ci' g, search demoState1 ci' none g =
      Except.error (ApiError.validation ("checkIn & checkOut required")))) :=
  ⟨by decide, by decide,
   claim5_search_spec demoState1 ("2024-06-01") ("2024-06-05") (some 2)
     (by decide) (by decide)⟩

/-- C6: cancel returns NotFound when the booking does not exist or is not
owned by the requester (indistinguishably); a Validation error when its
status is not confirmed (so cancelled is terminal); a Validation error when
its checkIn is not strictly after today (checkIn equal to today rejected);
otherwise it succeeds and the status of the targeted booking becomes
cancelled.  Moreover no operation puts any status other than confirmed or
cancelled into the ledger: every booking of a post state either carries one
of those two statuses or is an unchanged booking of the pre state. -/
theorem claim6_cancel_spec (st : ServerState) (uid id : Nat) (today : String) :
    (st.bookings.find? (fun b => b.id == id) = none →
      cancel st uid id today = (Except.error (ApiError.notFound ("Booking not found")), st)) ∧
    (∀ bk, st.bookings.find? (fun b => b.id == id) = some bk →
      (bk.userId ≠ uid →
        cancel st uid id today =
          (Except.error (ApiError.notFound ("Booking not found")), st)) ∧
      (bk.userId = uid → bk.status ≠ "confirmed" →
        cancel st uid id today =
          (Except.error (ApiError.validation ("Cannot cancel this booking")), st)) ∧
      (bk.userId = uid → bk.status = "confirmed" → bk.checkIn ≤ today →
        cancel st uid id today =
          (Except.error (ApiError.validation ("Cannot cancel past or ongoing stays")), st)) ∧
      (bk.userId = uid → bk.status = "confirmed" → today < bk.checkIn →
        cancel st uid id today = (Except.ok (),
          { st with bookings := st.bookings.map (fun b =>
              if b.id == id then { b with status := "cancelled" } else b) }))) ∧
    (∀ b', b' ∈ ((cancel st uid id today).2).bookings →
      b'.status = "cancelled" ∨ b' ∈ st.bookings) ∧
    (∀ uc req now b', b' ∈ ((createBooking st uc req now).2).bookings →
      b'.status = "confirmed" ∨ b' ∈ st.bookings) := by
  refine ⟨?_, ?_, ?_, ?_⟩
  · intro h
    simp [cancel, h]
  · intro bk hfind
    refine ⟨?_, ?_, ?_, ?_⟩
    · intro hne
      simp [cancel, hfind, bne_iff_ne, hne]
    · intro hown hstat
      simp [cancel, hfind, hown, bne_iff_ne, hstat]
    · intro hown hstat hle
      simp [cancel, hfind, hown, bne_iff_ne, hstat, (strLe_iff _ _).2 hle]
    · intro hown hstat hlt
      simp [cancel, hfind, hown, bne_iff_ne, hstat,
        (strLe_eq_false_iff _ _).2 hlt]
  · intro b'
    unfold cancel
    split
    · exact fun hb' => Or.inr hb'
    · split
      · exact fun hb' => Or.inr hb'
      · split
        · exact fun hb' => Or.inr hb'
        · split
          · exact fun hb' => Or.inr hb'
          · intro hb'
            simp only [List.mem_map] at hb'
            obtain ⟨a, ha, rfl⟩ := hb'
            by_cases hid : a.id = id
            · left; simp [hid]
            · right; simpa [hid] using ha
  · intro uc req now b'
    unfold createBooking
    split
    · exact fun hb' => Or.inr hb'
    · dsimp only
      split
      · exact fun hb' => Or.inr hb'
      · split
        · exact fun hb' => Or.inr hb'
        · intro hb'
          simp only [List.mem_append, List.mem_singleton] at hb'
          rcases hb' with hb' | hb'
          · exact Or.inr hb'
          · left; rw [hb']

/-- C6 witness: the confirmed future booking of `demoState1` is cancelled
successfully on 2024-05-30, through the success branch of
`claim6_cancel_spec`. -/
theorem claim6_cancel_spec_witness :
    cancel demoState1 7 1 ("2024-05-30") = (Except.ok (),
      { demoState1 with bookings := demoState1.bookings.map (fun b =>
          if b.id == 1 then { b with status := "cancelled" } else b) }) := by
  obtain ⟨-, h, -, -⟩ := claim6_cancel_spec demoState1 7 1 ("2024-05-30")
  exact (h demoBooking (by decide)).2.2.2 (by decide) (by decide)
    (by rw [String.lt_iff_toList_lt]; decide)

/-- C7: after successfully cancelling booking `bk`, an availability search
for exactly its former range (with a guest count within the room capacity)
includes the room again, provided no other confirmed booking on that room
overlaps the range — cancelling frees the room for the same dates. -/
theorem claim7_cancel_frees_room (st : ServerState) (uid id g : Nat)
    (today : String) (st' : ServerState) (bk : Booking) (room : Room)
    (hbk : bk ∈ st.bookings) (hbkid : bk.id = id)
    (hok : cancel st uid id today = (Except.ok (), st'))
    (hroom : room ∈ st.rooms) (hrm : room.id = bk.roomId)
    (hcap : g ≤ room.capacity)
    (hci : bk.checkIn ≠ "") (hco : bk.checkOut ≠ "")
    (hother : ∀ b' ∈ st.bookings, b'.id ≠ id → b'.status = "confirmed" →
      b'.roomId = room.id →
      datesOverlap bk.checkIn bk.checkOut b'.checkIn b'.checkOut = false) :
    ∃ l, search st' (some bk.checkIn) (some bk.checkOut) (some g) = Except.ok l ∧
      room ∈ l := by
  obtain ⟨hr, hu, hn, hbs⟩ := cancel_ok_inv st uid id today st' hok
  obtain ⟨l, hl, hmem⟩ := search_ok_mem st' bk.checkIn bk.checkOut (some g) hci hco
  refine ⟨l, hl, (hmem room).2 ⟨?_, ?_, ?_⟩⟩
  · rw [hr]; exact hroom
  · simpa using hcap
  · intro b hb hst hrm2
    rw [hbs] at hb
    obtain ⟨a, ha, rfl⟩ := List.mem_map.1 hb
    by_cases hid : a.id = id
    · exfalso; simp [hid] at hst
    · have hnoop : (if a.id == id then { a with status := "cancelled" } else a) = a := by
        simp [hid]
      rw [hnoop] at hst hrm2 ⊢
      exact hother a ha hid hst hrm2

/-- C7 witness: cancelling the `[2024-06-01, 2024-06-05)` booking makes the
room appear again in a search for exactly those dates. -/
theorem claim7_cancel_frees_room_witness :
    ∃ l, search demoStateCancelled (some demoBooking.checkIn)
      (some demoBooking.checkOut) (some 2) = Except.ok l ∧ demoRoom ∈ l :=
  claim7_cancel_frees_room demoState1 7 1 2 ("2024-05-30") demoStateCancelled
    demoBooking demoRoom
    (by decide) (by decide) (by decide) (by decide) (by decide) (by decide)
    (by decide) (by decide) (by decide)

/-- C9: a successful cancel changes nothing but the status of the targeted
booking: rooms, users, the id counter, the number of bookings, and every
field of every booking other than the status of the booking with the
targeted id are unchanged; that status becomes cancelled. -/
theorem claim9_cancel_frame (st : ServerState) (uid id : Nat) (today : String)
    (st' : ServerState) (hok : cancel st uid id today = (Except.ok (), st')) :
    st'.rooms = st.rooms ∧ st'.users = st.users ∧
    st'.nextBookingId = st.nextBookingId ∧
    st'.bookings.length = st.bookings.length ∧
    ∀ i (hi : i < st.bookings.length) (hi' : i < st'.bookings.length),
      (st'.bookings.get ⟨i, hi'⟩).id = (st.bookings.get ⟨i, hi⟩).id ∧
      (st'.bookings.get ⟨i, hi'⟩).userId = (st.bookings.get ⟨i, hi⟩).userId ∧
      (st'.bookings.get ⟨i, hi'⟩).roomId = (st.bookings.get ⟨i, hi⟩).roomId ∧
      (st'.bookings.get ⟨i, hi'⟩).checkIn = (st.bookings.get ⟨i, hi⟩).checkIn ∧
      (st'.bookings.get ⟨i, hi'⟩).checkOut = (st.bookings.get ⟨i, hi⟩).checkOut ∧
      (st'.bookings.get ⟨i, hi'⟩).fullName = (st.bookings.get ⟨i, hi⟩).fullName ∧
      (st'.bookings.get ⟨i, hi'⟩).email = (st.bookings.get ⟨i, hi⟩).email ∧
      (st'.bookings.get ⟨i, hi'⟩).phone = (st.bookings.get ⟨i, hi⟩).phone ∧
      (st'.bookings.get ⟨i, hi'⟩).specialRequests =
        (st.bookings.get ⟨i, hi⟩).specialRequests ∧
      (st'.bookings.get ⟨i, hi'⟩).createdAt = (st.bookings.get ⟨i, hi⟩).createdAt ∧
      ((st.bookings.get ⟨i, hi⟩).id ≠ id →
        (st'.bookings.get ⟨i, hi'⟩).status = (st.bookings.get ⟨i, hi⟩).status) ∧
      ((st.bookings.get ⟨i, hi⟩).id = id →
        (st'.bookings.get ⟨i, hi'⟩).status = "cancelled") := by
  obtain ⟨hr, hu, hn, hbs⟩ := cancel_ok_inv st uid id today st' hok
  refine ⟨hr, hu, hn, by rw [hbs]; simp, ?_⟩
  intro i hi hi'
  have hget : st'.bookings.get ⟨i, hi'⟩ =
      (fun b => if b.id == id then { b with status := "cancelled" } else b)
        (st.bookings.get ⟨i, hi⟩) := by
    have := List.get_of_eq hbs ⟨i, hi'⟩
    rw [this]
    simp [List.getElem_map]
  rw [hget]
  by_cases hid : (st.bookings.get ⟨i, hi⟩).id = id
  · simp only [List.get_eq_getElem] at hid ⊢
    simp [hid]
  · simp only [List.get_eq_getElem] at hid ⊢
    simp [hid]

/-- C9 witness: the frame property instantiated at the concrete cancel of
booking 1 in `demoState1`. -/
theorem claim9_cancel_frame_witness :
    demoStateCancelled.rooms = demoState1.rooms ∧
    demoStateCancelled.users = demoState1.users ∧
    demoStateCancelled.nextBookingId = demoState1.nextBookingId ∧
    demoStateCancelled.bookings.length = demoState1.bookings.length ∧
    ∀ i (hi : i < demoState1.bookings.length)
      (hi' : i < demoStateCancelled.bookings.length),
      (demoStateCancelled.bookings.get ⟨i, hi'⟩).id =
        (demoState1.bookings.get ⟨i, hi⟩).id ∧
      (demoStateCancelled.bookings.get ⟨i, hi'⟩).userId =
        (demoState1.bookings.get ⟨i, hi⟩).userId ∧
      (demoStateCancelled.bookings.get ⟨i, hi'⟩).roomId =
        (demoState1.bookings.get ⟨i, hi⟩).roomId ∧
      (demoStateCancelled.bookings.get ⟨i, hi'⟩).checkIn =
        (demoState1.bookings.get ⟨i, hi⟩).checkIn ∧
      (demoStateCancelled.bookings.get ⟨i, hi'⟩).checkOut =
        (demoState1.bookings.get ⟨i, hi⟩).checkOut ∧
      (demoStateCancelled.bookings.get ⟨i, hi'⟩).fullName =
        (demoState1.bookings.get ⟨i, hi⟩).fullName ∧
      (demoStateCancelled.bookings.get ⟨i, hi'⟩).email =
        (demoState1.bookings.get ⟨i, hi⟩).email ∧
      (demoStateCancelled.bookings.get ⟨i, hi'⟩).phone =
        (demoState1.bookings.get ⟨i, hi⟩).phone ∧
      (demoStateCancelled.bookings.get ⟨i, hi'⟩).specialRequests =
        (demoState1.bookings.get ⟨i, hi⟩).specialRequests ∧
      (demoStateCancelled.bookings.get ⟨i, hi'⟩).createdAt =
        (demoState1.bookings.get ⟨i, hi⟩).createdAt ∧
      ((demoState1.bookings.get ⟨i, hi⟩).id ≠ 1 →
        (demoStateCancelled.bookings.get ⟨i, hi'⟩).status =
          (demoState1.bookings.get ⟨i, hi⟩).status) ∧
      ((demoState1.bookings.get ⟨i, hi⟩).id = 1 →
        (demoStateCancelled.bookings.get ⟨i, hi'⟩).status = "cancelled") :=
  claim9_cancel_frame demoState1 7 1 ("2024-05-30") demoStateCancelled (by decide)

/-- C10: a successful createBooking stores the supplied field values
verbatim — the inserted booking carries exactly the request roomId,
checkIn, checkOut, fullName, email and phone, and the authenticated user
id — and when specialRequests is omitted or empty, the stored
specialRequests is the empty string (the field is total: never absent). -/
theorem claim10_insert_verbatim (st : ServerState) (uid : Nat)
    (req : BookingRequest) (now : String) (b : Booking) (room : Room)
    (st' : ServerState)
    (h : createBooking st uid req now = (Except.ok (b, room), st')) :
    ((req.specialRequests = none ∨ req.specialRequests = some ("")) →
      b.specialRequests = "") ∧
    req.roomId = some b.roomId ∧ req.checkIn = some b.checkIn ∧
    req.checkOut = some b.checkOut ∧ req.fullName = some b.fullName ∧
    req.email = some b.email ∧ req.phone = some b.phone ∧ b.userId = uid := by
  obtain ⟨h1, h2, h3, h4, h5, h6, -, -, rfl, -⟩ :=
    createBooking_ok_inv st uid req now b room st' h
  refine ⟨?_, ?_, ?_, ?_, ?_, ?_, ?_, rfl⟩
  · rintro (hsp | hsp) <;> simp [hsp]
  · simpa using truthyNat_some _ h1
  · simpa using truthyStr_some _ h2
  · simpa using truthyStr_some _ h3
  · simpa using truthyStr_some _ h4
  · simpa using truthyStr_some _ h5
  · simpa using truthyStr_some _ h6

/-- C10 witness: the booking inserted for `demoReqA` (whose
specialRequests is omitted) stores the request fields verbatim and the
empty string for specialRequests. -/
theorem claim10_insert_verbatim_witness :
    ((demoReqA.specialRequests = none ∨ demoReqA.specialRequests = some ("")) →
      demoBooking.specialRequests = "") ∧
    demoReqA.roomId = some demoBooking.roomId ∧
    demoReqA.checkIn = some demoBooking.checkIn ∧
    demoReqA.checkOut = some demoBooking.checkOut ∧
    demoReqA.fullName = some demoBooking.fullName ∧
    demoReqA.email = some demoBooking.email ∧
    demoReqA.phone = some demoBooking.phone ∧
    demoBooking.userId = 7 :=
  claim10_insert_verbatim demoState0 7 demoReqA ("t0") demoBooking demoRoom
    demoState1 (by decide)

end Hotel
